import Mathlib

/-!
Shallow embedding of the ephemeral chat and moderation engine of `app.py`
(the "Crème" chat application).

Conventions of the embedding:
* Database rows become Lean structures; a table becomes a `List` of rows.
* Timestamps are integers (seconds); `timedelta(hours=1)` is `3600`,
  `timedelta(minutes=1)` is `60`.
* `role` and `status` are stored as TEXT in the database and compared as
  strings in the code, so they stay `String`s here.
* External library primitives are injected as function parameters:
  `hashlib.sha256(...).hexdigest()` becomes a parameter `H : String → String`
  (the code only ever compares its outputs for equality), and the
  TextBlob sentiment call becomes a parameter `analyze : String → Int`.
* The SQL `ORDER BY` clauses are modelled with `List.insertionSort`
  (a stable sort, matching the sortedness-plus-multiset contract of the
  query).
-/

namespace Creme

/-- A row of the `users` table:
`(username TEXT PRIMARY KEY, hashed_password TEXT, avatar TEXT, role TEXT DEFAULT 'user', status TEXT DEFAULT 'active')`. -/
structure Account where
  username : String
  hashedPassword : String
  avatar : String
  role : String
  status : String
deriving DecidableEq

/-- A row of the `messages` table:
`(id INTEGER PRIMARY KEY, username TEXT, avatar TEXT, message TEXT, timestamp DATETIME, sentiment REAL DEFAULT 0.0)`.
The sentiment score is kept abstract as an integer-valued injected score. -/
structure Message where
  id : Nat
  username : String
  avatar : String
  message : String
  timestamp : Int
  sentiment : Int
deriving DecidableEq

/-- The `messages` table together with the next id the storage layer will
assign on insertion (`id INTEGER PRIMARY KEY` auto-assignment). -/
structure MessageStore where
  msgs : List Message
  nextId : Nat
deriving DecidableEq

/-- The moderation-relevant shared state: the `chat_mute_until` row of
`app_state` (`none` models a missing row, `init_db` always inserts it), the
`guest_login_disabled` flag, and the `muted_users` table
(`username TEXT PRIMARY KEY, muted_until DATETIME`). -/
structure ModerationState where
  chatMuteUntil : Option Int
  guestLoginDisabled : Bool
  mutedUsers : List (String × Int)
deriving DecidableEq

/-- Models `hash_password` from `app.py`: `sha256((password + APP_SALT)).hexdigest()`,
with the sha256-hexdigest primitive injected as `H`. -/
def hash_password (H : String → String) (salt : String) (password : String) : String :=
  H (password ++ salt)

/-- Models `verify_password` from `app.py`: `stored_hash == hash_password(provided_password)`. -/
def verify_password (H : String → String) (salt : String)
    (storedHash providedPassword : String) : Bool :=
  storedHash == hash_password H salt providedPassword

/-- Models `clear_old_messages` from `app.py`:
`cutoff = now - timedelta(hours=1); DELETE FROM messages WHERE timestamp < cutoff`. -/
def clear_old_messages (now : Int) (msgs : List Message) : List Message :=
  msgs.filter (fun m => !decide (m.timestamp < now - 3600))

/-- Models `get_all_messages` from `app.py`:
`SELECT * FROM messages ORDER BY timestamp ASC`. -/
def get_all_messages (msgs : List Message) : List Message :=
  msgs.insertionSort (fun a b => a.timestamp ≤ b.timestamp)

/-- Models `get_user_mute_status` from `app.py`:
`SELECT muted_until FROM muted_users WHERE username = :u`
(`username` is the primary key, so at most one row). -/
def get_user_mute_status (mutedUsers : List (String × Int)) (username : String) : Option Int :=
  mutedUsers.lookup username

/-- From `show_chat_screen`: `is_globally_muted = not chat_mute_row.empty and
value > datetime.now()`. -/
def is_globally_muted (st : ModerationState) (now : Int) : Bool :=
  match st.chatMuteUntil with
  | some t => decide (t > now)
  | none => false

/-- From `show_chat_screen`: `is_individually_muted = not user_mute_status.empty
and muted_until > datetime.now()`. -/
def is_individually_muted (st : ModerationState) (username : String) (now : Int) : Bool :=
  match get_user_mute_status st.mutedUsers username with
  | some t => decide (t > now)
  | none => false

/-- From `show_chat_screen`:
`chat_disabled = (is_globally_muted and role != 'admin') or is_individually_muted`. -/
def chat_disabled (st : ModerationState) (role username : String) (now : Int) : Bool :=
  (is_globally_muted st now && role != "admin") || is_individually_muted st username now

/-- Posting eligibility: the chat input is enabled exactly when
`chat_disabled` is false. -/
def is_posting_allowed (st : ModerationState) (role username : String) (now : Int) : Bool :=
  !chat_disabled st role username now

/-- The `INSERT INTO messages (username, avatar, message, timestamp, sentiment)`
statement of `show_chat_screen`, with the id assigned by the storage layer. -/
def append_message (analyze : String → Int) (username avatar prompt : String)
    (now : Int) (store : MessageStore) : MessageStore :=
  { msgs := store.msgs ++
      [{ id := store.nextId, username := username, avatar := avatar,
         message := prompt, timestamp := now, sentiment := analyze prompt }],
    nextId := store.nextId + 1 }

/-- A post attempt in `show_chat_screen`: the chat input is disabled when
`chat_disabled` holds (so no prompt can be submitted), and the handler body
`if prompt:` skips empty submissions; otherwise the raw prompt is scored and
inserted verbatim. -/
def post_attempt (analyze : String → Int) (st : ModerationState)
    (role username avatar prompt : String) (now : Int) (store : MessageStore) : MessageStore :=
  if chat_disabled st role username now then store
  else if prompt == "" then store
  else append_message analyze username avatar prompt now store

/-- Outcomes of the guest-setup form (`show_guest_setup_screen`). -/
inductive GuestJoinResult where
  | emptyUsernameWarning
  | duplicateUsername
  | joined (username : String) (avatar : String) (role : String)
deriving DecidableEq

/-- Models `show_guest_setup_screen` from `app.py`: warn on an empty name; otherwise
`SELECT 1 FROM users WHERE username = :u` and refuse on a collision with a
registered username, else enter the chat as `"<name> (Guest)"` with role
`guest`. The second component records that the handler never writes to the
`users` table. -/
def guest_join (accounts : List Account) (username avatar : String) :
    GuestJoinResult × List Account :=
  if username == "" then (.emptyUsernameWarning, accounts)
  else if accounts.any (fun a => a.username == username) then (.duplicateUsername, accounts)
  else (.joined (username ++ " (Guest)") avatar "guest", accounts)

/-- Outcomes of the login form (`show_login_screen`). -/
inductive LoginResult where
  | invalidCredentials
  | banned
  | loggedIn (username : String) (avatar : String) (role : String)
deriving DecidableEq

/-- Models `show_login_screen` from `app.py`: fetch the row with the given username
(`fetchone`); `if user and verify_password(...)` then refuse a banned account,
else start the session from the stored row; otherwise
`"Invalid username or password."`. -/
def authenticate (H : String → String) (salt : String) (accounts : List Account)
    (username password : String) : LoginResult :=
  match accounts.find? (fun a => a.username == username) with
  | some user =>
    if verify_password H salt user.hashedPassword password then
      if user.status == "banned" then .banned
      else .loggedIn user.username user.avatar user.role
    else .invalidCredentials
  | none => .invalidCredentials

/-- Outcomes of the registration form (`show_register_screen`). -/
inductive RegisterResult where
  | missingFields
  | duplicateUsername
  | registered
deriving DecidableEq

/-- Models `show_register_screen` from `app.py`: require both fields, then
`INSERT INTO users (username, hashed_password, avatar)` — the `role` and
`status` columns take their schema defaults `'user'` and `'active'`; a
`UNIQUE constraint failed` error on the primary key becomes
`"Username already exists."`. -/
def register (H : String → String) (salt : String) (accounts : List Account)
    (username password avatar : String) : RegisterResult × List Account :=
  if username == "" || password == "" then (.missingFields, accounts)
  else if accounts.any (fun a => a.username == username) then (.duplicateUsername, accounts)
  else (.registered, accounts ++
    [{ username := username, hashedPassword := hash_password H salt password,
       avatar := avatar, role := "user", status := "active" }])

/-- The admin dashboard "Lift Mute" action:
`UPDATE app_state SET value = datetime.now() - timedelta(minutes=1) WHERE key = 'chat_mute_until'`
(an UPDATE of a missing row changes nothing). -/
def unmute_chat (st : ModerationState) (now : Int) : ModerationState :=
  { st with chatMuteUntil := st.chatMuteUntil.map (fun _ => now - 60) }

/-- The admin dashboard "Confirm Mute" action on one user:
`INSERT OR REPLACE INTO muted_users (username, muted_until) VALUES (:u, :end)`. -/
def mute_user (st : ModerationState) (username : String) (muteEnd : Int) : ModerationState :=
  { st with mutedUsers := st.mutedUsers.filter (fun p => p.1 != username) ++ [(username, muteEnd)] }

/-- The admin dashboard "Unmute" action:
`DELETE FROM muted_users WHERE username = :u`. -/
def unmute_user (st : ModerationState) (username : String) : ModerationState :=
  { st with mutedUsers := st.mutedUsers.filter (fun p => p.1 != username) }

/-- The admin dashboard "Ban"/"Unban" actions:
`UPDATE users SET status = :status WHERE username = :u`. -/
def set_user_status (accounts : List Account) (username status : String) : List Account :=
  accounts.map (fun a => if a.username == username then { a with status := status } else a)

/-- The admin "Reset Pass" action (`show_change_password_form` with
`is_admin_reset=True`): `UPDATE users SET hashed_password = :hp WHERE username = :u`. -/
def reset_user_password (accounts : List Account) (username newHash : String) : List Account :=
  accounts.map (fun a => if a.username == username then { a with hashedPassword := newHash } else a)

/-- A row of the user list the admin dashboard iterates over. -/
structure AdminUserRow where
  username : String
  avatar : String
  role : String
  status : String
deriving DecidableEq

/-- The SQL pattern match `username LIKE '%(Guest)'` (SQLite LIKE is
ASCII-case-insensitive), expressed over the character list of the string. -/
def like_guest (username : String) : Bool :=
  "(guest)".data.isSuffixOf (username.data.map Char.toLower)

/-- Models the pandas `drop_duplicates(subset=['username'])`: keep the first row seen
for each username. -/
def drop_duplicates_by_username (rows : List AdminUserRow) : List AdminUserRow :=
  rows.foldl (fun acc r =>
    if acc.any (fun x => x.username == r.username) then acc else acc ++ [r]) []

/-- The `SELECT DISTINCT` of the guest query: keep the first occurrence of
every `(username, avatar)` pair. -/
def sql_distinct (rows : List (String × String)) : List (String × String) :=
  rows.foldl (fun acc r => if acc.contains r then acc else acc ++ [r]) []

/-- Models `get_all_users_for_admin` from `app.py`: registered users without the
super admin (`WHERE username != :admin ORDER BY username`), plus the distinct
guest identities seen in messages of the last hour
(`SELECT DISTINCT username, avatar FROM messages WHERE username LIKE '%(Guest)'
AND timestamp > :time`) given role `guest` and status `active`, concatenated
and de-duplicated by username. -/
def get_all_users_for_admin (superAdmin : String) (accounts : List Account)
    (msgs : List Message) (now : Int) : List AdminUserRow :=
  let registered :=
    ((accounts.filter (fun a => a.username != superAdmin)).map
      (fun a => AdminUserRow.mk a.username a.avatar a.role a.status)).insertionSort
      (fun a b => a.username ≤ b.username)
  let guests :=
    (sql_distinct ((msgs.filter
      (fun m => like_guest m.username && decide (now - 3600 < m.timestamp))).map
      (fun m => (m.username, m.avatar)))).map
      (fun p => AdminUserRow.mk p.1 p.2 "guest" "active")
  drop_duplicates_by_username (registered ++ guests)

instance : IsTotal Message (fun a b => a.timestamp ≤ b.timestamp) :=
  ⟨fun a b => le_total a.timestamp b.timestamp⟩

instance : IsTrans Message (fun a b => a.timestamp ≤ b.timestamp) :=
  ⟨fun _ _ _ h h2 => le_trans h h2⟩

/-- Elements produced by a keep-first de-duplicating fold come from the
accumulator or from the input list. -/
theorem mem_foldl_dedup {α : Type} (g : List α → α → Bool) :
    ∀ (l acc : List α) (x : α),
      x ∈ l.foldl (fun acc r => if g acc r then acc else acc ++ [r]) acc →
      x ∈ acc ∨ x ∈ l := by
  intro l
  induction l with
  | nil => exact fun acc x h => Or.inl h
  | cons b bs ih =>
    intro acc x h
    rw [List.foldl_cons] at h
    rcases ih _ x h with h1 | h1
    · by_cases hb : g acc b = true
      · rw [if_pos hb] at h1
        exact Or.inl h1
      · rw [if_neg hb] at h1
        rcases List.mem_append.mp h1 with h2 | h2
        · exact Or.inl h2
        · simp only [List.mem_singleton] at h2
          exact Or.inr (h2 ▸ List.mem_cons_self b bs)
    · exact Or.inr (List.mem_cons_of_mem _ h1)

/-- Rows surviving the pandas de-duplication were rows of the input. -/
theorem mem_drop_duplicates_by_username {rows : List AdminUserRow} {r : AdminUserRow}
    (h : r ∈ drop_duplicates_by_username rows) : r ∈ rows := by
  unfold drop_duplicates_by_username at h
  rcases mem_foldl_dedup (fun acc r => acc.any (fun x => x.username == r.username))
      rows [] r h with h1 | h1
  · cases h1
  · exact h1

/-- Pairs surviving the SQL DISTINCT were rows of the input. -/
theorem mem_sql_distinct {rows : List (String × String)} {p : String × String}
    (h : p ∈ sql_distinct rows) : p ∈ rows := by
  unfold sql_distinct at h
  rcases mem_foldl_dedup (fun acc r => acc.contains r) rows [] p h with h1 | h1
  · cases h1
  · exact h1

/-- Mapping a username-preserving per-row update that fixes every row with
username `sa` does not change the result of looking up `sa`. -/
theorem find?_username_map (as : List Account) (f : Account → Account)
    (hf : ∀ a, (f a).username = a.username) (sa : String)
    (hfix : ∀ a, a.username = sa → f a = a) :
    (as.map f).find? (fun a => a.username == sa) = as.find? (fun a => a.username == sa) := by
  induction as with
  | nil => rfl
  | cons a as ih =>
    rw [List.map_cons]
    by_cases hsa : a.username = sa
    · rw [hfix a hsa]
      have hpa2 : (a.username == sa) = true := beq_iff_eq.mpr hsa
      simp only [List.find?, hpa2]
    · have hpa : ((f a).username == sa) = false := by
        rw [hf a]; exact beq_eq_false_iff_ne.mpr hsa
      have hpa2 : (a.username == sa) = false := beq_eq_false_iff_ne.mpr hsa
      simp only [List.find?, hpa, hpa2]
      exact ih

/-- Banning, unbanning or any other status update aimed at a different
username leaves the lookup of `sa` in the users table unchanged. -/
theorem find?_set_user_status (accounts : List Account) (u status sa : String) (h : u ≠ sa) :
    (set_user_status accounts u status).find? (fun a => a.username == sa) =
      accounts.find? (fun a => a.username == sa) := by
  apply find?_username_map
  · intro a
    by_cases ha : a.username = u <;> simp [ha]
  · intro a hsa2
    have hne : (a.username == u) = false :=
      beq_eq_false_iff_ne.mpr (fun hh => h ((hh.symm.trans hsa2)))
    simp [hne]

/-- A password reset aimed at a different username leaves the lookup of `sa`
in the users table unchanged. -/
theorem find?_reset_user_password (accounts : List Account) (u newHash sa : String)
    (h : u ≠ sa) :
    (reset_user_password accounts u newHash).find? (fun a => a.username == sa) =
      accounts.find? (fun a => a.username == sa) := by
  apply find?_username_map
  · intro a
    by_cases ha : a.username = u <;> simp [ha]
  · intro a hsa2
    have hne : (a.username == u) = false :=
      beq_eq_false_iff_ne.mpr (fun hh => h ((hh.symm.trans hsa2)))
    simp [hne]

/-- Deleting the mute row of a different username does not change the lookup
of `sa` in the muted-users table. -/
theorem lookup_filter_ne (l : List (String × Int)) (u sa : String) (h : u ≠ sa) :
    (l.filter (fun p => p.1 != u)).lookup sa = l.lookup sa := by
  induction l with
  | nil => rfl
  | cons p ps ih =>
    obtain ⟨k, v⟩ := p
    by_cases hk : k = u
    · have hcond : (k != u) = false := by simp [hk]
      have hks : (sa == k) = false :=
        beq_eq_false_iff_ne.mpr (fun hh => h (hk ▸ hh.symm))
      rw [List.filter_cons]
      simp only [hcond, Bool.false_eq_true, if_false]
      rw [ih, List.lookup]
      simp [hks]
    · have hcond : (k != u) = true := by simp [hk]
      rw [List.filter_cons]
      simp only [hcond, if_true]
      by_cases hks : sa = k
      · simp [List.lookup, hks]
      · have hks2 : (sa == k) = false := beq_eq_false_iff_ne.mpr hks
        simp [List.lookup, hks2, ih]

/-- Appending a mute row for a different username does not change the lookup
of `sa` in the muted-users table. -/
theorem lookup_append_single_ne (xs : List (String × Int)) (u sa : String) (e : Int)
    (h : u ≠ sa) :
    (xs ++ [(u, e)]).lookup sa = xs.lookup sa := by
  induction xs with
  | nil =>
    have hsu : (sa == u) = false := beq_eq_false_iff_ne.mpr (fun hh => h hh.symm)
    simp [List.lookup, hsu]
  | cons p ps ih =>
    obtain ⟨k, v⟩ := p
    by_cases hks : sa = k
    · simp [List.lookup, hks]
    · have hks2 : (sa == k) = false := beq_eq_false_iff_ne.mpr hks
      simp [List.lookup, hks2, ih]

/-- Every row of the admin user list carries a username different from the
super admin's (whose username does not match the guest name pattern). -/
theorem username_ne_of_mem_users_list {superAdmin : String} {accounts : List Account}
    {msgs : List Message} {now : Int} (hsa : like_guest superAdmin = false)
    {row : AdminUserRow} (hrow : row ∈ get_all_users_for_admin superAdmin accounts msgs now) :
    row.username ≠ superAdmin := by
  unfold get_all_users_for_admin at hrow
  have hmem := mem_drop_duplicates_by_username hrow
  rcases List.mem_append.mp hmem with hreg | hg
  · rw [List.mem_insertionSort] at hreg
    rcases List.mem_map.mp hreg with ⟨a, ha, rfl⟩
    have hflt := (List.mem_filter.mp ha).2
    simpa [bne_iff_ne] using hflt
  · rcases List.mem_map.mp hg with ⟨p, hp, rfl⟩
    rcases List.mem_map.mp (mem_sql_distinct hp) with ⟨m, hm, rfl⟩
    have hflt := (List.mem_filter.mp hm).2
    have hlg : like_guest m.username = true := by
      simp only [Bool.and_eq_true, decide_eq_true_eq] at hflt
      exact hflt.1
    intro heq
    dsimp only at heq
    rw [heq] at hlg
    rw [hsa] at hlg
    exact absurd hlg (by decide)

/-- C1: for every caller with role `r` and username `u` and every time `now`,
the posting-eligibility check allows posting iff NOT (the global mute is
active at `now` AND `r ≠ admin`) AND NOT (an individual mute for `u` is
active at `now`); in particular an admin's eligibility ignores the global
mute entirely but still tracks the individual mute, so an individually muted
admin is not allowed to post. -/
theorem C1_posting_eligibility (st : ModerationState) (role username : String) (now : Int) :
    (is_posting_allowed st role username now = true ↔
      ¬(is_globally_muted st now = true ∧ role ≠ "admin") ∧
        ¬(is_individually_muted st username now = true)) ∧
    is_posting_allowed st "admin" username now = !is_individually_muted st username now := by
  constructor
  · cases hg : is_globally_muted st now <;> cases hi : is_individually_muted st username now <;>
      simp [is_posting_allowed, chat_disabled, hg, hi, bne_iff_ne]
  · simp [is_posting_allowed, chat_disabled]

/-- C2: after a sweep at time `now`, a message `m` that was stored is absent
from the displayed message list iff `now - m.created_at` exceeds the fixed
one-hour retention window; and sweeping twice with the same `now` yields the
same message set as sweeping once. -/
theorem C2_retention_sweep (msgs : List Message) (now : Int) (m : Message) :
    (m ∈ msgs → (m ∉ get_all_messages (clear_old_messages now msgs) ↔ now - m.timestamp > 3600)) ∧
    clear_old_messages now (clear_old_messages now msgs) = clear_old_messages now msgs := by
  constructor
  · intro hm
    simp [get_all_messages, List.mem_insertionSort, clear_old_messages, List.mem_filter, hm]
    omega
  · simp [clear_old_messages, List.filter_filter]

/-- Witness for C2 at a concrete store: a message created at time 0 is gone
after a sweep at time 3601. -/
theorem C2_retention_sweep_witness :
    (⟨1, "Sam2 (Guest)", "☕", "hi", 0, 0⟩ : Message) ∈
        ([⟨1, "Sam2 (Guest)", "☕", "hi", 0, 0⟩] : List Message) ∧
    ((⟨1, "Sam2 (Guest)", "☕", "hi", 0, 0⟩ : Message) ∉
        get_all_messages (clear_old_messages 3601 [⟨1, "Sam2 (Guest)", "☕", "hi", 0, 0⟩]) ↔
      (3601 : Int) - (⟨1, "Sam2 (Guest)", "☕", "hi", 0, 0⟩ : Message).timestamp > 3600) :=
  ⟨by decide,
   (C2_retention_sweep [⟨1, "Sam2 (Guest)", "☕", "hi", 0, 0⟩] 3601
     ⟨1, "Sam2 (Guest)", "☕", "hi", 0, 0⟩).1 (by decide)⟩

/-- C3 counterexample: two posts from the same session one second apart (less
than the claimed 3-second cooldown) both succeed — the second attempt also
appends its message, and no rejection of any kind occurs. -/
theorem C3_counterexample :
    ((post_attempt (fun _ => 0) ⟨some 0, false, []⟩ "user" "u" "☕" "second" 1
        (post_attempt (fun _ => 0) ⟨some 0, false, []⟩ "user" "u" "☕" "first" 0
          ⟨[], 1⟩)).msgs.map Message.message) = ["first", "second"] := by
  rfl

/-- C3 (amended): the code performs no rate limiting at all — for any two
post attempts from the same session at any two times, however close, both
succeed whenever posting is allowed and the bodies are nonempty, and both
messages are appended; no `RateLimited` outcome exists in the code. -/
theorem C3_no_rate_limit (analyze : String → Int) (st : ModerationState)
    (role username avatar p1 p2 : String) (t1 t2 : Int) (store : MessageStore)
    (h1 : chat_disabled st role username t1 = false)
    (h2 : chat_disabled st role username t2 = false)
    (hp1 : p1 ≠ "") (hp2 : p2 ≠ "") :
    (post_attempt analyze st role username avatar p2 t2
        (post_attempt analyze st role username avatar p1 t1 store)).msgs =
      store.msgs ++
        [⟨store.nextId, username, avatar, p1, t1, analyze p1⟩,
         ⟨store.nextId + 1, username, avatar, p2, t2, analyze p2⟩] := by
  simp [post_attempt, h1, h2, append_message, hp1, hp2]

/-- Witness for C3 (amended) at a concrete session: posts at times 0 and 1
both land in the store. -/
theorem C3_no_rate_limit_witness :
    (post_attempt (fun _ => 0) ⟨some 0, false, []⟩ "user" "u" "☕" "second" 1
        (post_attempt (fun _ => 0) ⟨some 0, false, []⟩ "user" "u" "☕" "first" 0
          ⟨[], 1⟩)).msgs =
      (⟨[], 1⟩ : MessageStore).msgs ++
        [⟨1, "u", "☕", "first", 0, 0⟩, ⟨2, "u", "☕", "second", 1, 0⟩] :=
  C3_no_rate_limit (fun _ => 0) ⟨some 0, false, []⟩ "user" "u" "☕" "first" "second" 0 1
    ⟨[], 1⟩ (by decide) (by decide) (by decide) (by decide)

/-- C4 counterexample: a post whose body is HTML markup is stored completely
verbatim — nothing is stripped or escaped, and the stored string still
contains the markup character `<`. -/
theorem C4_counterexample :
    (post_attempt (fun _ => 0) ⟨some 0, false, []⟩ "user" "u" "☕" "<b>hi</b>" 5
        ⟨[], 1⟩).msgs.map Message.message = ["<b>hi</b>"] ∧
      '<' ∈ "<b>hi</b>".data := by
  exact ⟨rfl, by decide⟩

/-- C4 (amended): for every accepted post attempt the stored body is exactly
the submitted body, unmodified — no sanitization step exists (the raw prompt
is inserted and later rendered inside an `unsafe_allow_html` HTML template). -/
theorem C4_body_stored_verbatim (analyze : String → Int) (st : ModerationState)
    (role username avatar prompt : String) (now : Int) (store : MessageStore)
    (h : chat_disabled st role username now = false) (hp : prompt ≠ "") :
    (post_attempt analyze st role username avatar prompt now store).msgs =
      store.msgs ++ [⟨store.nextId, username, avatar, prompt, now, analyze prompt⟩] := by
  simp [post_attempt, h, append_message, hp]

/-- Witness for C4 (amended): the markup body `<b>hi</b>` is stored verbatim. -/
theorem C4_body_stored_verbatim_witness :
    (post_attempt (fun _ => 0) ⟨some 0, false, []⟩ "user" "u" "☕" "<b>hi</b>" 5
        ⟨[], 1⟩).msgs =
      (⟨[], 1⟩ : MessageStore).msgs ++ [⟨1, "u", "☕", "<b>hi</b>", 5, 0⟩] :=
  C4_body_stored_verbatim (fun _ => 0) ⟨some 0, false, []⟩ "user" "u" "☕" "<b>hi</b>" 5
    ⟨[], 1⟩ (by decide) (by decide)

/-- C5 counterexample: with two stored messages whose id order disagrees with
their timestamp order, the displayed list comes back in timestamp order
`[2, 1]`, which is not ascending by id. -/
theorem C5_counterexample :
    (get_all_messages
        [⟨1, "a", "☕", "m1", 10, 0⟩, ⟨2, "b", "🌙", "m2", 5, 0⟩]).map Message.id = [2, 1] ∧
      ¬ List.Sorted (· ≤ ·) ([2, 1] : List Nat) := by
  exact ⟨rfl, by simp [List.sorted_cons]⟩

/-- C5 (amended): `get_all_messages` returns exactly the stored messages (as
a multiset) sorted by `timestamp` ascending — timestamp order, not id order,
is the ordering the query uses. -/
theorem C5_ordered_by_timestamp (msgs : List Message) :
    List.Perm (get_all_messages msgs) msgs ∧
      List.Sorted (fun a b => a.timestamp ≤ b.timestamp) (get_all_messages msgs) :=
  ⟨List.perm_insertionSort _ _, List.sorted_insertionSort _ _⟩

/-- C6 counterexample: with no registered account at all, the empty display
name collides with nothing, yet the guest-setup handler neither succeeds nor
reports a duplicate — it stops with the please-enter-a-username warning. -/
theorem C6_counterexample :
    (guest_join [] "" "☕").1 = GuestJoinResult.emptyUsernameWarning ∧
      GuestJoinResult.emptyUsernameWarning ≠ GuestJoinResult.duplicateUsername ∧
      GuestJoinResult.emptyUsernameWarning ≠
        GuestJoinResult.joined ("" ++ " (Guest)") "☕" "guest" := by
  exact ⟨rfl, by decide, by decide⟩

/-- C6 (amended): for every nonempty display name `d`, `guest_join` fails
with `DuplicateUsername` iff `d` exactly equals an existing registered
username; otherwise it succeeds and yields the ephemeral identity
`"<d> (Guest)"` with role `guest`; in all cases the `users` table is left
untouched (guests are never persisted as accounts). An empty display name is
instead rejected with a fill-in warning. -/
theorem C6_guest_join (accounts : List Account) (d avatar : String) (hd : d ≠ "") :
    ((guest_join accounts d avatar).1 = .duplicateUsername ↔ ∃ a ∈ accounts, a.username = d) ∧
    ((∀ a ∈ accounts, a.username ≠ d) →
      (guest_join accounts d avatar).1 = .joined (d ++ " (Guest)") avatar "guest") ∧
    (guest_join accounts d avatar).2 = accounts := by
  have hne : (d == "") = false := beq_eq_false_iff_ne.mpr hd
  refine ⟨?_, ?_, ?_⟩
  · by_cases hany : ∃ a ∈ accounts, a.username = d
    · simp [guest_join, hne, List.any_eq_true, hany]
    · simp [guest_join, hne, List.any_eq_true, hany]
  · intro h
    have hany : accounts.any (fun a => a.username == d) = false := by
      simp only [List.any_eq_false, beq_iff_eq]
      exact h
    simp [guest_join, hne, hany]
  · unfold guest_join
    split
    · rfl
    · split
      · rfl
      · rfl

/-- Witness for C6 (amended): guest `"Sam2"` joins while only `"Sam"` is
registered. -/
theorem C6_guest_join_witness :
    (guest_join [Account.mk "Sam" "h" "☕" "user" "active"] "Sam2" "🌙").1 =
      GuestJoinResult.joined ("Sam2" ++ " (Guest)") "🌙" "guest" :=
  ((C6_guest_join [Account.mk "Sam" "h" "☕" "user" "active"] "Sam2" "🌙" (by decide)).2.1)
    (by decide)

/-- C7: `authenticate` fails with invalid credentials when no account with
the given username exists, or when the stored hash does not match the
provided password; when the hash matches and the account is banned no
session data is produced, only the banned signal; otherwise it succeeds and
yields that account's identity, avatar and role. -/
theorem C7_authenticate (H : String → String) (salt : String) (accounts : List Account)
    (username password : String) :
    (accounts.find? (fun a => a.username == username) = none →
      authenticate H salt accounts username password = .invalidCredentials) ∧
    ∀ user, accounts.find? (fun a => a.username == username) = some user →
      (verify_password H salt user.hashedPassword password = false →
        authenticate H salt accounts username password = .invalidCredentials) ∧
      (verify_password H salt user.hashedPassword password = true →
        user.status = "banned" →
        authenticate H salt accounts username password = .banned) ∧
      (verify_password H salt user.hashedPassword password = true →
        user.status ≠ "banned" →
        authenticate H salt accounts username password =
          .loggedIn user.username user.avatar user.role) := by
  refine ⟨fun h => by simp [authenticate, h], ?_⟩
  intro user hu
  refine ⟨fun hv => by simp [authenticate, hu, hv], ?_, ?_⟩
  · intro hv hb
    simp [authenticate, hu, hv, hb]
  · intro hv hb
    simp [authenticate, hu, hv, hb]

/-- Witness for C7: a stored account with a matching hash and active status
logs in. -/
theorem C7_authenticate_witness :
    authenticate (fun s => s) "s" [Account.mk "u" "pws" "☕" "user" "active"] "u" "pw" =
      LoginResult.loggedIn "u" "☕" "user" :=
  ((C7_authenticate (fun s => s) "s" [Account.mk "u" "pws" "☕" "user" "active"] "u" "pw").2
      (Account.mk "u" "pws" "☕" "user" "active") (by decide)).2.2 (by decide) (by decide)

/-- C8: the "Lift Mute" action sets `chat_mute_until` to a timestamp one
minute in the past rather than a null; running it again at the same time
changes nothing further, and when the chat is already unmuted it causes no
change in posting eligibility at any present or future time. -/
theorem C8_unmute_chat (st : ModerationState) (now t : Int) (h : st.chatMuteUntil = some t) :
    ((unmute_chat st now).chatMuteUntil = some (now - 60) ∧ now - 60 < now) ∧
    unmute_chat (unmute_chat st now) now = unmute_chat st now ∧
    (t ≤ now → ∀ (role username : String) (t2 : Int), now ≤ t2 →
      is_posting_allowed (unmute_chat st now) role username t2 =
        is_posting_allowed st role username t2) := by
  refine ⟨⟨by simp [unmute_chat, h], by omega⟩, by simp [unmute_chat, h], ?_⟩
  intro ht role username t2 ht2
  have hg1 : is_globally_muted (unmute_chat st now) t2 = false := by
    simp only [is_globally_muted, unmute_chat, h, Option.map_some']
    simpa using by omega
  have hg2 : is_globally_muted st t2 = false := by
    simp only [is_globally_muted, h]
    simpa using by omega
  have hind : is_individually_muted (unmute_chat st now) username t2 =
      is_individually_muted st username t2 := by
    simp [is_individually_muted, unmute_chat, get_user_mute_status]
  simp only [is_posting_allowed, chat_disabled]
  rw [hg1, hg2, hind]

/-- Witness for C8: lifting the mute at time 5 on a state whose mute expired
at time 0. -/
theorem C8_unmute_chat_witness :
    (unmute_chat ⟨some 0, false, []⟩ 5).chatMuteUntil = some (5 - 60) ∧
    is_posting_allowed (unmute_chat ⟨some 0, false, []⟩ 5) "user" "u" 6 =
      is_posting_allowed ⟨some 0, false, []⟩ "user" "u" 6 :=
  ⟨(C8_unmute_chat ⟨some 0, false, []⟩ 5 0 rfl).1.1,
   (C8_unmute_chat ⟨some 0, false, []⟩ 5 0 rfl).2.2 (by decide) "user" "u" 6 (by decide)⟩

/-- C9: the user list the admin dashboard iterates over never contains the
super-admin account (its registered row is excluded by the query, and —
since the configured super-admin username does not match the `%(Guest)`
pattern — no synthesized guest row can carry it either); consequently the
dashboard's ban/unban (status updates), password resets, mutes and unmutes,
which all target a username drawn from that list, can never touch the super
admin's account row or mute entry, so its status stays whatever it was
(`active`). -/
theorem C9_super_admin_shielded (superAdmin : String) (accounts : List Account)
    (msgs : List Message) (now : Int) (hsa : like_guest superAdmin = false) :
    (∀ row ∈ get_all_users_for_admin superAdmin accounts msgs now,
      row.username ≠ superAdmin) ∧
    (∀ row ∈ get_all_users_for_admin superAdmin accounts msgs now, ∀ status : String,
      (set_user_status accounts row.username status).find?
          (fun a => a.username == superAdmin) =
        accounts.find? (fun a => a.username == superAdmin)) ∧
    (∀ row ∈ get_all_users_for_admin superAdmin accounts msgs now, ∀ newHash : String,
      (reset_user_password accounts row.username newHash).find?
          (fun a => a.username == superAdmin) =
        accounts.find? (fun a => a.username == superAdmin)) ∧
    (∀ row ∈ get_all_users_for_admin superAdmin accounts msgs now,
      ∀ (st : ModerationState) (muteEnd : Int),
      get_user_mute_status (mute_user st row.username muteEnd).mutedUsers superAdmin =
        get_user_mute_status st.mutedUsers superAdmin ∧
      get_user_mute_status (unmute_user st row.username).mutedUsers superAdmin =
        get_user_mute_status st.mutedUsers superAdmin) := by
  refine ⟨fun row hrow => username_ne_of_mem_users_list hsa hrow, ?_, ?_, ?_⟩
  · intro row hrow status
    exact find?_set_user_status accounts row.username status superAdmin
      (username_ne_of_mem_users_list hsa hrow)
  · intro row hrow newHash
    exact find?_reset_user_password accounts row.username newHash superAdmin
      (username_ne_of_mem_users_list hsa hrow)
  · intro row hrow st muteEnd
    have hne := username_ne_of_mem_users_list hsa hrow
    constructor
    · show ((st.mutedUsers.filter (fun p => p.1 != row.username)) ++
          [(row.username, muteEnd)]).lookup superAdmin = st.mutedUsers.lookup superAdmin
      rw [lookup_append_single_ne _ _ _ _ hne, lookup_filter_ne _ _ _ hne]
    · show (st.mutedUsers.filter (fun p => p.1 != row.username)).lookup superAdmin =
        st.mutedUsers.lookup superAdmin
      exact lookup_filter_ne _ _ _ hne

/-- Witness for C9: with the super admin `"admin"` and one other registered
user `"bob"`, the dashboard list contains `bob` only, and banning `bob`
leaves the super admin's row untouched. -/
theorem C9_super_admin_shielded_witness :
    (AdminUserRow.mk "bob" "☕" "user" "active").username ≠ "admin" ∧
    (set_user_status
        [Account.mk "admin" "h" "👑" "admin" "active",
         Account.mk "bob" "h2" "☕" "user" "active"] "bob" "banned").find?
        (fun a => a.username == "admin") =
      ([Account.mk "admin" "h" "👑" "admin" "active",
        Account.mk "bob" "h2" "☕" "user" "active"] : List Account).find?
        (fun a => a.username == "admin") :=
  ⟨(C9_super_admin_shielded "admin"
      [Account.mk "admin" "h" "👑" "admin" "active",
       Account.mk "bob" "h2" "☕" "user" "active"] [] 0 (by decide)).1
      (AdminUserRow.mk "bob" "☕" "user" "active") (by decide),
   (C9_super_admin_shielded "admin"
      [Account.mk "admin" "h" "👑" "admin" "active",
       Account.mk "bob" "h2" "☕" "user" "active"] [] 0 (by decide)).2.1
      (AdminUserRow.mk "bob" "☕" "user" "active") (by decide) "banned"⟩

/-- C10: `verify_password (hash_password p) p` always holds;
`verify_password h q` holds iff `hash_password q = h`; and an account just
registered with password `p` (hence status `active`, role `user`, hash
unchanged) authenticates successfully with `p`. -/
theorem C10_password_roundtrip (H : String → String) (salt p : String) :
    verify_password H salt (hash_password H salt p) p = true ∧
    (∀ h q, verify_password H salt h q = true ↔ hash_password H salt q = h) ∧
    (∀ (accounts : List Account) (username avatar : String),
      username ≠ "" → p ≠ "" → (∀ a ∈ accounts, a.username ≠ username) →
      authenticate H salt (register H salt accounts username p avatar).2 username p =
        .loggedIn username avatar "user") := by
  refine ⟨by simp [verify_password], ?_, ?_⟩
  · intro h q
    constructor
    · intro hv
      exact (beq_iff_eq.mp hv).symm
    · intro hh
      exact beq_iff_eq.mpr hh.symm
  · intro accounts username avatar hu hp hfresh
    have hcond : (username == "") = false := beq_eq_false_iff_ne.mpr hu
    have hcondp : (p == "") = false := beq_eq_false_iff_ne.mpr hp
    have hany : accounts.any (fun a => a.username == username) = false := by
      simp only [List.any_eq_false, beq_iff_eq]
      exact hfresh
    have hreg : (register H salt accounts username p avatar).2 =
        accounts ++
          [Account.mk username (hash_password H salt p) avatar "user" "active"] := by
      simp [register, hcond, hcondp, hany]
    have hnone : accounts.find? (fun a => a.username == username) = none := by
      rw [List.find?_eq_none]
      intro a ha
      simpa using hfresh a ha
    rw [hreg]
    unfold authenticate
    rw [List.find?_append, hnone, Option.none_or]
    have hfind : ([Account.mk username (hash_password H salt p) avatar "user" "active"] :
        List Account).find? (fun a => a.username == username) =
        some (Account.mk username (hash_password H salt p) avatar "user" "active") := by
      simp [List.find?]
    rw [hfind]
    have hv : verify_password H salt (hash_password H salt p) p = true := by
      simp [verify_password]
    have hb : (("active" : String) == "banned") = false := by decide
    simp [hv, hb]

/-- Witness for C10: a fresh registration of `"u"` with password `"pw"`
immediately logs in. -/
theorem C10_password_roundtrip_witness :
    authenticate (fun s => s) "s!" (register (fun s => s) "s!" [] "u" "pw" "☕").2 "u" "pw" =
      LoginResult.loggedIn "u" "☕" "user" :=
  (C10_password_roundtrip (fun s => s) "s!" "pw").2.2 [] "u" "☕"
    (by decide) (by decide) (by decide)

end Creme
